import Mathlib

/-!
# The Python recipe shim of Arbor (`python/recipe.cpp`)

A shallow embedding of the marshalling layer between a Python recipe and the
simulation engine: the connection shim with its delay guard, the resolvers of
cell descriptions and global properties, the event generator adapter and the
two textual renderings.

Conventions of the embedding

* a C++ function that can throw returns `Except exception _`;
* a mutating member function that can throw returns the outcome together with
  the state of the object after the call;
* `cell_gid_type` and `cell_lid_type` (32 bit unsigned) are `Nat`: the code
  only copies and prints them;
* floating point values are kept exactly, as sign, significand and binary
  exponent, so every `float` and every `double` is a value of `fp`;
* the scoped acquisition of the interpreter lock has no effect on the values
  computed and is left out.
-/

set_option linter.dupNamespace false

namespace pyarb

/-! ## Floating point values -/

/-- An IEEE-754 datum: a NaN, an infinity, or the finite number
`(-1)^neg * m * 2^e`. Every `float` and `double` is such a value; zero is
`num neg 0 e`. -/
inductive fp where
  | nan (neg : Bool)
  | inf (neg : Bool)
  | num (neg : Bool) (m : Nat) (e : Int)
deriving DecidableEq, Repr

/-- The finite number `(-1)^neg * m * 2^e` as an integer multiple of `2^lo`,
for `lo ≤ e`. -/
def fp.scaled (neg : Bool) (m : Nat) (e lo : Int) : Int :=
  if neg then -((m : Int) * 2 ^ (e - lo).toNat) else (m : Int) * 2 ^ (e - lo).toNat

/-- The comparison `a < b` of C++ on floating point operands: false as soon
as one operand is a NaN. -/
def fp.lt : fp → fp → Bool
  | .nan _, _ => false
  | _, .nan _ => false
  | .inf n₁, .inf n₂ => n₁ && !n₂
  | .inf n₁, .num _ _ _ => n₁
  | .num _ _ _, .inf n₂ => !n₂
  | .num n₁ m₁ e₁, .num n₂ m₂ e₂ =>
    decide (fp.scaled n₁ m₁ e₁ (min e₁ e₂) < fp.scaled n₂ m₂ e₂ (min e₁ e₂))

/-- The comparison `a == b` of C++ on floating point operands: false as soon
as one operand is a NaN, and `-0 == +0`. -/
def fp.eq : fp → fp → Bool
  | .nan _, _ => false
  | _, .nan _ => false
  | .inf n₁, .inf n₂ => n₁ == n₂
  | .inf _, .num _ _ _ => false
  | .num _ _ _, .inf _ => false
  | .num n₁ m₁ e₁, .num n₂ m₂ e₂ =>
    decide (fp.scaled n₁ m₁ e₁ (min e₁ e₂) = fp.scaled n₂ m₂ e₂ (min e₁ e₂))

/-- The conversion of the integer literal `0` to a floating point type, as in
`arb::time_type(0)`. -/
def fp.zero : fp := .num false 0 0

instance : Zero fp := ⟨fp.zero⟩

instance : LT fp := ⟨fun a b => fp.lt a b = true⟩

instance : LE fp := ⟨fun a b => (fp.lt a b || fp.eq a b) = true⟩

instance (a b : fp) : Decidable (a < b) := inferInstanceAs (Decidable (fp.lt a b = true))

instance (a b : fp) : Decidable (a ≤ b) :=
  inferInstanceAs (Decidable ((fp.lt a b || fp.eq a b) = true))

/-! ## Engine types used by the shim -/

abbrev cell_gid_type := Nat

abbrev cell_lid_type := Nat

/-- The endpoint `arb::cell_member_type`: a cell and a local index on it. -/
structure cell_member_type where
  gid : cell_gid_type
  index : cell_lid_type
deriving DecidableEq, Repr

abbrev time_type := fp

/-- What a C++ call of the shim can throw: the shim's own `pyarb_error` with
its message, the `cast_error` of a failed `pybind11::cast`, and the error
raised by a call into the Python recipe. -/
inductive exception where
  | pyarb_error (what : String)
  | cast_error
  | error_already_set (what : String)
deriving DecidableEq, Repr

/-- Modelled from the spec: `pyarb::assert_throw` of `error.hpp`, which is not
among the sources: the guard that fails with a `pyarb_error` carrying the
given message when the condition does not hold, and does nothing otherwise. -/
def assert_throw (pred : Bool) (msg : String) : Except exception Unit :=
  if pred then .ok () else .error (.pyarb_error msg)

/-! ## The connection shim -/

/-- The members of `struct cell_connection_shim`. -/
structure cell_connection_shim where
  source : cell_member_type
  destination : cell_member_type
  weight : fp
  delay : time_type
deriving DecidableEq, Repr

namespace cell_connection_shim

/-- The member function `set_delay`: the outcome of the call and the object
after it. The guard runs first; the member is written only when it passed. -/
def set_delay (self : cell_connection_shim) (t : time_type) :
    Except exception Unit × cell_connection_shim :=
  match assert_throw (decide ((0 : fp) < t)) "connection delay must be positive" with
  | .error err => (.error err, self)
  | .ok _ => (.ok (), { self with delay := t })

/-- The member function `get_delay`. -/
def get_delay (self : cell_connection_shim) : time_type := self.delay

/-- The constructor. `raw` is the storage of the object before the body
runs, whose members hold indeterminate values. The body assigns source,
destination and weight and then calls `set_delay`; when that call throws the
constructor throws and there is no object. -/
def cell_connection_shim (raw : cell_connection_shim) (src dst : cell_member_type) (w : fp)
    (del : time_type) : Except exception cell_connection_shim :=
  let self₁ := { raw with source := src }
  let self₂ := { self₁ with destination := dst }
  let self₃ := { self₂ with weight := w }
  match self₃.set_delay del with
  | (.error err, _) => .error err
  | (.ok _, self₄) => .ok self₄

end cell_connection_shim

/-! ## The engine side and the Python side -/

/-- The closed enumeration `arb::cell_kind`. -/
inductive cell_kind where
  | cable
  | lif
  | spike_source
  | benchmark
deriving DecidableEq, Repr

/-- The types and the one function of the simulation engine that the shim
only passes along: the four cell descriptions, the global properties of cable
cells, the time schedule, the engine's event generator and
`arb::schedule_generator`, which builds an event generator from a target
endpoint, a weight and a schedule. Their headers are not among the sources
and the shim never looks inside them, so they are parameters. -/
structure engine where
  cable_cell : Type
  lif_cell : Type
  spike_source_cell : Type
  benchmark_cell : Type
  cable_cell_global_properties : Type
  schedule : Type
  event_generator : Type
  schedule_generator : cell_member_type → fp → schedule → event_generator

/-- The members of `pyarb::event_generator_shim` (declared in
`event_generator.hpp`) that the adapter reads. -/
structure event_generator_shim (A : engine) where
  target : cell_member_type
  weight : fp
  time_sched : A.schedule

/-- The runtime shape of a Python object as `pybind11::isinstance` and
`pybind11::cast` see it: an instance of one of the classes bound to a C++
type, with the C++ value it wraps, or an object of any other Python type. -/
inductive pyshape (A : engine) where
  | cable_cell (p : A.cable_cell)
  | lif_cell (p : A.lif_cell)
  | spike_source_cell (p : A.spike_source_cell)
  | benchmark_cell (p : A.benchmark_cell)
  | cable_cell_global_properties (p : A.cable_cell_global_properties)
  | event_generator_shim (p : event_generator_shim A)
  | other

/-- A `pybind11::object`: its runtime shape and the text `pybind11::str`
gives for it. -/
structure pyobject (A : engine) where
  shape : pyshape A
  str : String

/-- `pybind11::isinstance<arb::cable_cell>`. -/
def isinstance_cable_cell {A : engine} (o : pyobject A) : Bool :=
  match o.shape with
  | .cable_cell _ => true
  | _ => false

/-- `pybind11::isinstance<arb::lif_cell>`. -/
def isinstance_lif_cell {A : engine} (o : pyobject A) : Bool :=
  match o.shape with
  | .lif_cell _ => true
  | _ => false

/-- `pybind11::isinstance<arb::spike_source_cell>`. -/
def isinstance_spike_source_cell {A : engine} (o : pyobject A) : Bool :=
  match o.shape with
  | .spike_source_cell _ => true
  | _ => false

/-- `pybind11::isinstance<arb::benchmark_cell>`. -/
def isinstance_benchmark_cell {A : engine} (o : pyobject A) : Bool :=
  match o.shape with
  | .benchmark_cell _ => true
  | _ => false

/-- `pybind11::isinstance<pyarb::event_generator_shim>`. -/
def isinstance_event_generator_shim {A : engine} (o : pyobject A) : Bool :=
  match o.shape with
  | .event_generator_shim _ => true
  | _ => false

/-- `pybind11::cast<arb::cable_cell>`: the wrapped value, or `cast_error`
when the object wraps no such value. -/
def cast_cable_cell {A : engine} (o : pyobject A) : Except exception A.cable_cell :=
  match o.shape with
  | .cable_cell p => .ok p
  | _ => .error .cast_error

/-- `pybind11::cast<arb::lif_cell>`. -/
def cast_lif_cell {A : engine} (o : pyobject A) : Except exception A.lif_cell :=
  match o.shape with
  | .lif_cell p => .ok p
  | _ => .error .cast_error

/-- `pybind11::cast<arb::spike_source_cell>`. -/
def cast_spike_source_cell {A : engine} (o : pyobject A) :
    Except exception A.spike_source_cell :=
  match o.shape with
  | .spike_source_cell p => .ok p
  | _ => .error .cast_error

/-- `pybind11::cast<arb::benchmark_cell>`. -/
def cast_benchmark_cell {A : engine} (o : pyobject A) : Except exception A.benchmark_cell :=
  match o.shape with
  | .benchmark_cell p => .ok p
  | _ => .error .cast_error

/-- `pybind11::cast<arb::cable_cell_global_properties>`. -/
def cast_cable_cell_global_properties {A : engine} (o : pyobject A) :
    Except exception A.cable_cell_global_properties :=
  match o.shape with
  | .cable_cell_global_properties p => .ok p
  | _ => .error .cast_error

/-- `pybind11::cast<const pyarb::event_generator_shim&>`. -/
def cast_event_generator_shim {A : engine} (o : pyobject A) :
    Except exception (event_generator_shim A) :=
  match o.shape with
  | .event_generator_shim p => .ok p
  | _ => .error .cast_error

/-- The `arb::util::unique_any` that `get_cell_description` returns: the type
of the value held and the value. -/
inductive unique_any (A : engine) where
  | cable_cell (p : A.cable_cell)
  | lif_cell (p : A.lif_cell)
  | spike_source_cell (p : A.spike_source_cell)
  | benchmark_cell (p : A.benchmark_cell)

/-- The `arb::util::any` that `get_global_properties` returns: empty, or
holding the global properties of cable cells. -/
inductive any (A : engine) where
  | empty
  | cable_cell_global_properties (p : A.cable_cell_global_properties)

/-- The three queries of the Python recipe (`py_recipe`, declared in
`recipe.hpp`) that the shim forwards to. A query runs Python code, so it
either returns or raises. -/
structure py_recipe (A : engine) where
  cell_description : cell_gid_type → Except exception (pyobject A)
  global_properties : cell_kind → Except exception (pyobject A)
  event_generators : cell_gid_type → Except exception (List (pyobject A))

/-- The class `py_recipe_shim`: it holds the Python recipe in `impl_`. -/
structure py_recipe_shim (A : engine) where
  impl_ : py_recipe A

namespace py_recipe_shim

/-- The member function `get_cell_description`. -/
def get_cell_description {A : engine} (self : py_recipe_shim A) (gid : cell_gid_type) :
    Except exception (unique_any A) := do
  let o ← self.impl_.cell_description gid
  if isinstance_cable_cell o then
    return unique_any.cable_cell (← cast_cable_cell o)
  else if isinstance_lif_cell o then
    return unique_any.lif_cell (← cast_lif_cell o)
  else if isinstance_spike_source_cell o then
    return unique_any.spike_source_cell (← cast_spike_source_cell o)
  else if isinstance_benchmark_cell o then
    return unique_any.benchmark_cell (← cast_benchmark_cell o)
  else
    throw (exception.pyarb_error
      ("recipe.cell_description returned \"" ++ o.str
        ++ "\" which does not describe a known Arbor cell type"))

/-- The member function `get_global_properties`. Both branches of the
conditional return, so the `throw pyarb_error("recipe.global_properties
returned ...")` that follows it in the source is never reached and has no
counterpart here. -/
def get_global_properties {A : engine} (self : py_recipe_shim A) (kind : cell_kind) :
    Except exception (any A) := do
  let o ← self.impl_.global_properties kind
  if kind = cell_kind.cable then
    return any.cable_cell_global_properties (← cast_cable_cell_global_properties o)
  else
    return any.empty

/-- The loop of `event_generators` over the objects not yet visited, with
the vector `gens` built so far. -/
def event_generators_loop {A : engine} (gid : cell_gid_type) :
    List (pyobject A) → List A.event_generator → Except exception (List A.event_generator)
  | [], gens => .ok gens
  | g :: rest, gens =>
    if !isinstance_event_generator_shim g then
      .error (exception.pyarb_error
        ("recipe supplied an invalid event generator for gid " ++ toString gid ++ ": " ++ g.str))
    else
      match cast_event_generator_shim g with
      | .error err => .error err
      | .ok p =>
        event_generators_loop gid rest
          (gens ++ [A.schedule_generator ⟨gid, p.target.index⟩ p.weight p.time_sched])

/-- The member function `event_generators`. -/
def event_generators {A : engine} (self : py_recipe_shim A) (gid : cell_gid_type) :
    Except exception (List A.event_generator) := do
  let pygens ← self.impl_.event_generators gid
  event_generators_loop gid pygens []

end py_recipe_shim

/-! ## Textual rendering -/

/-- The decimal digits `ds` without their trailing zeros. -/
def strip_zeros (ds : List Char) : List Char :=
  (ds.reverse.dropWhile (fun ch => ch == '0')).reverse

/-- The text a default C++ output stream writes for the positive finite
number `m * 2^e`: the general format with six significant digits, rounded to
nearest with ties to even on the exact value, trailing zeros removed,
scientific notation when the decimal exponent is below `-4` or at least `6`.
Here `N / 10^k` is the exact decimal expansion of the number, `L` its count
of digits, `q` its six leading digits after rounding and `X` the decimal
exponent. -/
def fp.render_pos (m : Nat) (e : Int) : List Char :=
  let N := if 0 ≤ e then m * 2 ^ e.toNat else m * 5 ^ (-e).toNat
  let k : Nat := if 0 ≤ e then 0 else (-e).toNat
  let L := (Nat.toDigits 10 N).length
  let X₀ : Int := (L : Int) - 1 - k
  let q := if L ≤ 6 then N * 10 ^ (6 - L) else
    if 2 * (N % 10 ^ (L - 6)) > 10 ^ (L - 6)
        ∨ (2 * (N % 10 ^ (L - 6)) = 10 ^ (L - 6) ∧ (N / 10 ^ (L - 6)) % 2 = 1)
      then N / 10 ^ (L - 6) + 1 else N / 10 ^ (L - 6)
  let sig := if q = 10 ^ 6 then 10 ^ 5 else q
  let X := if q = 10 ^ 6 then X₀ + 1 else X₀
  let ds := Nat.toDigits 10 sig
  if X < -4 ∨ 6 ≤ X then
    let frac := strip_zeros (ds.drop 1)
    let ex := Nat.toDigits 10 X.natAbs
    ds.take 1 ++ (if frac = [] then [] else '.' :: frac)
      ++ ['e', if X < 0 then '-' else '+'] ++ (if ex.length < 2 then '0' :: ex else ex)
  else if 0 ≤ X then
    let frac := strip_zeros (ds.drop (X.toNat + 1))
    ds.take (X.toNat + 1) ++ (if frac = [] then [] else '.' :: frac)
  else
    '0' :: '.' :: List.replicate ((-X).toNat - 1) '0' ++ strip_zeros ds

/-- The text `operator<<` of a default C++ output stream writes for a `float`
or a `double`. -/
def stream_fp : fp → String
  | .nan neg => if neg then "-nan" else "nan"
  | .inf neg => if neg then "-inf" else "inf"
  | .num neg 0 _ => if neg then "-0" else "0"
  | .num neg (m + 1) e => String.mk ((if neg then ['-'] else []) ++ fp.render_pos (m + 1) e)

/-- The text `operator<<` of a default C++ output stream writes for an
unsigned integer: its decimal digits. -/
def stream_unsigned (n : Nat) : String := toString n

/-- Modelled from the spec: the recursion `impl::pprintf_` behind
`util::pprintf` of `strprintf.hpp`, which is not among the sources. The
format is copied up to its first `{}`, the rendering of the next argument is
written in its place, and the rest of the format is treated the same way with
the arguments that remain; without arguments the rest of the format is copied
as it is, and arguments left over at the end of the format are dropped. -/
def pprintf_ : List Char → List String → List Char
  | [], _ => []
  | s, [] => s
  | '{' :: '}' :: rest, value :: tail => value.data ++ pprintf_ rest tail
  | ch :: rest, value :: tail => ch :: pprintf_ rest (value :: tail)

/-- Modelled from the spec: `util::pprintf` of `strprintf.hpp`, which is not
among the sources: the format with its `{}` placeholders replaced, from left
to right, by the renderings of the arguments. -/
def pprintf (s : String) (args : List String) : String := String.mk (pprintf_ s.data args)

/-- The function `con_to_string`. -/
def con_to_string (c : cell_connection_shim) : String :=
  pprintf "<connection: (\x7b\x7d,\x7b\x7d) -> (\x7b\x7d,\x7b\x7d), delay \x7b\x7d, weight \x7b\x7d>"
    [stream_unsigned c.source.gid, stream_unsigned c.source.index,
      stream_unsigned c.destination.gid, stream_unsigned c.destination.index,
      stream_fp c.delay, stream_fp c.weight]

/-- The members of `arb::gap_junction_connection`. -/
structure gap_junction_connection where
  «local» : cell_member_type
  peer : cell_member_type
  ggap : fp
deriving DecidableEq, Repr

/-- The function `gj_to_string`. -/
def gj_to_string (gc : gap_junction_connection) : String :=
  pprintf "<gap junction: (\x7b\x7d,\x7b\x7d) <-> (\x7b\x7d,\x7b\x7d), conductance \x7b\x7d>"
    [stream_unsigned gc.«local».gid, stream_unsigned gc.«local».index,
      stream_unsigned gc.peer.gid, stream_unsigned gc.peer.index, stream_fp gc.ggap]

/-- The `float` nearest to 0.1, which is `13421773 / 2^27`. -/
def float_0_1 : fp := .num false 13421773 (-27)

/-- The connection from (2,1) to (5,0) with weight 0.1 and delay 0.5. -/
def sample_connection : cell_connection_shim := ⟨⟨2, 1⟩, ⟨5, 0⟩, float_0_1, .num false 1 (-1)⟩

/-- The gap junction between (0,1) and (3,2) with conductance -0.25. -/
def sample_gap_junction : gap_junction_connection := ⟨⟨0, 1⟩, ⟨3, 2⟩, .num true 1 (-2)⟩

/-! ## A concrete engine and concrete recipes -/

/-- An engine whose cell descriptions are plain data and whose scheduled
generator is the triple of its arguments. -/
@[reducible]
def sample_engine : engine where
  cable_cell := String
  lif_cell := Nat
  spike_source_cell := List Nat
  benchmark_cell := Nat × Nat
  cable_cell_global_properties := String
  schedule := List Nat
  event_generator := cell_member_type × fp × List Nat
  schedule_generator := fun target weight sched => (target, weight, sched)

/-- The Python object `None`. -/
def py_none : pyobject sample_engine := ⟨.other, "None"⟩

/-- The Python string `'soma'`. -/
def py_text : pyobject sample_engine := ⟨.other, "soma"⟩

/-- A generator descriptor aimed at local index 3, weight 0.5. -/
def sample_gen_a : event_generator_shim sample_engine := ⟨⟨0, 3⟩, .num false 1 (-1), [1, 2, 3]⟩

/-- A generator descriptor aimed at local index 1, weight 2. -/
def sample_gen_b : event_generator_shim sample_engine := ⟨⟨9, 1⟩, .num false 1 1, []⟩

/-- A well-formed recipe: cells 0 to 3 have the four kinds in turn, every
other gid has the description `None`; cell 1 has two generators. -/
def sample_recipe : py_recipe sample_engine where
  cell_description := fun gid =>
    match gid with
    | 0 => .ok ⟨.cable_cell "ball and stick", "<arbor.cable_cell>"⟩
    | 1 => .ok ⟨.lif_cell 42, "<arbor.lif_cell>"⟩
    | 2 => .ok ⟨.spike_source_cell [10, 20], "<arbor.spike_source_cell>"⟩
    | 3 => .ok ⟨.benchmark_cell (5, 6), "<arbor.benchmark_cell>"⟩
    | _ => .ok py_none
  global_properties := fun kind =>
    match kind with
    | .cable => .ok ⟨.cable_cell_global_properties "neuron defaults", "<arbor.cable_global_properties>"⟩
    | _ => .ok py_text
  event_generators := fun gid =>
    match gid with
    | 1 => .ok [⟨.event_generator_shim sample_gen_a, "<arbor.event_generator>"⟩,
        ⟨.event_generator_shim sample_gen_b, "<arbor.event_generator>"⟩]
    | _ => .ok []

/-- A malformed recipe: the global properties of cable cells are `None`, and
the generators of every cell are a descriptor, `None`, a descriptor and a
string. -/
def broken_recipe : py_recipe sample_engine where
  cell_description := fun _ => .ok py_none
  global_properties := fun _ => .ok py_none
  event_generators := fun _ =>
    .ok [⟨.event_generator_shim sample_gen_a, "<arbor.event_generator>"⟩, py_none,
      ⟨.event_generator_shim sample_gen_b, "<arbor.event_generator>"⟩, py_text]

/-- Storage holding arbitrary values, as before a constructor has run. -/
def raw_storage : cell_connection_shim := ⟨⟨99, 98⟩, ⟨97, 96⟩, .nan false, .num true 7 0⟩

/-! ## Lemmas on the comparison with zero -/

theorem fp.zero_lt_iff (t : fp) :
    (0 : fp) < t ↔ t = .inf false ∨ ∃ m e, 0 < m ∧ t = .num false m e := by
  show fp.lt fp.zero t = true ↔ _
  cases t with
  | nan n => simp [fp.lt, fp.zero]
  | inf n => cases n <;> simp [fp.lt, fp.zero]
  | num n m e =>
    cases n
    · simp only [fp.lt, fp.zero, fp.scaled, decide_eq_true_eq]
      simp only [Nat.cast_zero, zero_mul, Bool.false_eq_true, if_false]
      constructor
      · intro h
        right
        refine ⟨m, e, ?_, rfl⟩
        by_contra hm
        have : m = 0 := by omega
        subst this
        simp at h
      · rintro (h | ⟨m', e', hm, h⟩)
        · cases h
        · cases h
          positivity
    · simp only [fp.lt, fp.zero, fp.scaled, decide_eq_true_eq]
      simp only [Nat.cast_zero, zero_mul, Bool.false_eq_true, if_false, if_true]
      constructor
      · intro h
        exfalso
        have : (0 : Int) ≤ (m : Int) * 2 ^ (e - min 0 e).toNat := by positivity
        omega
      · rintro (h | ⟨m', e', hm, h⟩)
        · cases h
        · cases h

theorem fp.not_zero_lt_of_le_zero (t : fp) (h : t ≤ 0) : ¬ (0 : fp) < t := by
  intro hpos
  have hle : (fp.lt t fp.zero || fp.eq t fp.zero) = true := h
  rcases (fp.zero_lt_iff t).1 hpos with ht | ⟨m, e, hm, ht⟩
  · subst ht
    simp [fp.lt, fp.eq, fp.zero] at hle
  · subst ht
    have hpow : (0 : Int) < (m : Int) * 2 ^ (e - min e 0).toNat := by positivity
    simp only [fp.lt, fp.eq, fp.zero, fp.scaled, Nat.cast_zero, zero_mul, Bool.false_eq_true,
      if_false, Bool.or_eq_true, decide_eq_true_eq] at hle
    omega

theorem set_delay_of_pos (c : cell_connection_shim) (t : time_type) (h : (0 : fp) < t) :
    c.set_delay t = (.ok (), { c with delay := t }) := by
  simp [cell_connection_shim.set_delay, assert_throw, h]

theorem set_delay_of_not_pos (c : cell_connection_shim) (t : time_type) (h : ¬ (0 : fp) < t) :
    c.set_delay t = (.error (.pyarb_error "connection delay must be positive"), c) := by
  simp [cell_connection_shim.set_delay, assert_throw, h]

/-! ## The delay guard at construction and at mutation -/

/-- Claim C1: constructing a connection shim from `src`, `dst`, `w` and `d`
yields an object exactly when `d > 0`; the object then has delay `d` (read
through `get_delay`), source `src`, destination `dst` and weight `w`; for
`d ≤ 0`, and for every other `d` that is not above zero, the constructor
throws the `pyarb_error` "connection delay must be positive" and there is no
object. This holds whatever the storage held before the constructor ran. -/
theorem cell_connection_shim_ctor_iff_pos (raw : cell_connection_shim)
    (src dst : cell_member_type) (w : fp) (d : time_type) :
    ((∃ c, cell_connection_shim.cell_connection_shim raw src dst w d = .ok c) ↔ (0 : fp) < d) ∧
    ((0 : fp) < d →
      ∃ c, cell_connection_shim.cell_connection_shim raw src dst w d = .ok c ∧
        c.get_delay = d ∧ c.source = src ∧ c.destination = dst ∧ c.weight = w) ∧
    (d ≤ 0 →
      cell_connection_shim.cell_connection_shim raw src dst w d
        = .error (.pyarb_error "connection delay must be positive")) ∧
    (¬ (0 : fp) < d →
      cell_connection_shim.cell_connection_shim raw src dst w d
        = .error (.pyarb_error "connection delay must be positive")) := by
  have hpos : (0 : fp) < d →
      cell_connection_shim.cell_connection_shim raw src dst w d
        = .ok ⟨src, dst, w, d⟩ := by
    intro h
    simp [cell_connection_shim.cell_connection_shim, set_delay_of_pos _ _ h]
  have hneg : ¬ (0 : fp) < d →
      cell_connection_shim.cell_connection_shim raw src dst w d
        = .error (.pyarb_error "connection delay must be positive") := by
    intro h
    simp [cell_connection_shim.cell_connection_shim, set_delay_of_not_pos _ _ h]
  refine ⟨⟨?_, fun h => ⟨_, hpos h⟩⟩, ?_, ?_, hneg⟩
  · rintro ⟨c, hc⟩
    by_contra h
    rw [hneg h] at hc
    cases hc
  · intro h
    exact ⟨_, hpos h, rfl, rfl, rfl, rfl⟩
  · intro h
    exact hneg (fp.not_zero_lt_of_le_zero d h)

/-- Witness of C1: from storage holding arbitrary values, delay 0.5 gives the
connection with exactly the arguments, while delay 0, delay -1 and a NaN
delay give the error and no object. -/
theorem cell_connection_shim_ctor_witness :
    (∃ c, cell_connection_shim.cell_connection_shim raw_storage ⟨2, 1⟩ ⟨5, 0⟩ float_0_1
          (.num false 1 (-1)) = .ok c ∧
        c.get_delay = .num false 1 (-1) ∧ c.source = ⟨2, 1⟩ ∧ c.destination = ⟨5, 0⟩ ∧
        c.weight = float_0_1) ∧
    cell_connection_shim.cell_connection_shim raw_storage ⟨2, 1⟩ ⟨5, 0⟩ float_0_1 0
      = .error (.pyarb_error "connection delay must be positive") ∧
    cell_connection_shim.cell_connection_shim raw_storage ⟨2, 1⟩ ⟨5, 0⟩ float_0_1
      (.num true 1 0) = .error (.pyarb_error "connection delay must be positive") ∧
    cell_connection_shim.cell_connection_shim raw_storage ⟨2, 1⟩ ⟨5, 0⟩ float_0_1
      (.nan false) = .error (.pyarb_error "connection delay must be positive") :=
  ⟨(cell_connection_shim_ctor_iff_pos raw_storage ⟨2, 1⟩ ⟨5, 0⟩ float_0_1
      (.num false 1 (-1))).2.1 (by decide),
    (cell_connection_shim_ctor_iff_pos raw_storage ⟨2, 1⟩ ⟨5, 0⟩ float_0_1 0).2.2.1 (by decide),
    (cell_connection_shim_ctor_iff_pos raw_storage ⟨2, 1⟩ ⟨5, 0⟩ float_0_1
      (.num true 1 0)).2.2.1 (by decide),
    (cell_connection_shim_ctor_iff_pos raw_storage ⟨2, 1⟩ ⟨5, 0⟩ float_0_1
      (.nan false)).2.2.2 (by decide)⟩

/-- Claim C2: `set_delay t` on an existing connection shim `c` follows the
rule of construction. For `t > 0` the call returns normally and the object
afterwards has delay `t` with source, destination and weight as before. For
`t ≤ 0`, and for every other `t` that is not above zero, the call throws the
`pyarb_error` "connection delay must be positive" and the object afterwards is
`c` itself, delay included. -/
theorem set_delay_guard (c : cell_connection_shim) (t : time_type) :
    ((0 : fp) < t →
      (c.set_delay t).1 = .ok () ∧ (c.set_delay t).2.get_delay = t ∧
        (c.set_delay t).2.source = c.source ∧
        (c.set_delay t).2.destination = c.destination ∧
        (c.set_delay t).2.weight = c.weight) ∧
    (t ≤ 0 →
      (c.set_delay t).1 = .error (.pyarb_error "connection delay must be positive") ∧
        (c.set_delay t).2 = c) ∧
    (¬ (0 : fp) < t →
      (c.set_delay t).1 = .error (.pyarb_error "connection delay must be positive") ∧
        (c.set_delay t).2 = c) := by
  refine ⟨fun h => ?_, fun h => ?_, fun h => ?_⟩
  · rw [set_delay_of_pos c t h]
    exact ⟨rfl, rfl, rfl, rfl, rfl⟩
  · rw [set_delay_of_not_pos c t (fp.not_zero_lt_of_le_zero t h)]
    exact ⟨rfl, rfl⟩
  · rw [set_delay_of_not_pos c t h]
    exact ⟨rfl, rfl⟩

/-- Witness of C2 on the sample connection, whose delay is 0.5: setting the
delay to 2 succeeds and changes the delay only; setting it to 0 or to -1
throws and leaves the connection as it was. -/
theorem set_delay_guard_witness :
    ((sample_connection.set_delay (.num false 1 1)).1 = .ok () ∧
      (sample_connection.set_delay (.num false 1 1)).2.get_delay = .num false 1 1 ∧
      (sample_connection.set_delay (.num false 1 1)).2.source = sample_connection.source ∧
      (sample_connection.set_delay (.num false 1 1)).2.destination
        = sample_connection.destination ∧
      (sample_connection.set_delay (.num false 1 1)).2.weight = sample_connection.weight) ∧
    ((sample_connection.set_delay 0).1
        = .error (.pyarb_error "connection delay must be positive") ∧
      (sample_connection.set_delay 0).2 = sample_connection) ∧
    ((sample_connection.set_delay (.num true 1 0)).1
        = .error (.pyarb_error "connection delay must be positive") ∧
      (sample_connection.set_delay (.num true 1 0)).2 = sample_connection) :=
  ⟨(set_delay_guard sample_connection (.num false 1 1)).1 (by decide),
    (set_delay_guard sample_connection 0).2.1 (by decide),
    (set_delay_guard sample_connection (.num true 1 0)).2.1 (by decide)⟩

/-! ## Resolving cell descriptions -/

theorem get_cell_description_of_returned {A : engine} (self : py_recipe_shim A)
    (gid : cell_gid_type) (o : pyobject A) (h : self.impl_.cell_description gid = .ok o) :
    self.get_cell_description gid =
      match o.shape with
      | .cable_cell p => .ok (.cable_cell p)
      | .lif_cell p => .ok (.lif_cell p)
      | .spike_source_cell p => .ok (.spike_source_cell p)
      | .benchmark_cell p => .ok (.benchmark_cell p)
      | _ => .error (.pyarb_error
          ("recipe.cell_description returned \"" ++ o.str
            ++ "\" which does not describe a known Arbor cell type")) := by
  unfold py_recipe_shim.get_cell_description
  rw [h]
  cases hs : o.shape <;>
    simp [isinstance_cable_cell, isinstance_lif_cell, isinstance_spike_source_cell,
      isinstance_benchmark_cell, cast_cable_cell, cast_lif_cell, cast_spike_source_cell,
      cast_benchmark_cell, hs, bind, Except.bind, pure, Except.pure, throw, throwThe,
      MonadExceptOf.throw]

/-- Claim C3: when the recipe's `cell_description(gid)` returns an object
whose runtime shape is one of the four cell kinds (cable, LIF, spike source,
benchmark) with payload `p`, `get_cell_description(gid)` returns normally and
the result holds that same kind with that same payload `p`. -/
theorem get_cell_description_resolves {A : engine} (self : py_recipe_shim A)
    (gid : cell_gid_type) (o : pyobject A) (h : self.impl_.cell_description gid = .ok o) :
    (∀ p, o.shape = .cable_cell p → self.get_cell_description gid = .ok (.cable_cell p)) ∧
    (∀ p, o.shape = .lif_cell p → self.get_cell_description gid = .ok (.lif_cell p)) ∧
    (∀ p, o.shape = .spike_source_cell p →
      self.get_cell_description gid = .ok (.spike_source_cell p)) ∧
    (∀ p, o.shape = .benchmark_cell p →
      self.get_cell_description gid = .ok (.benchmark_cell p)) := by
  have key := get_cell_description_of_returned self gid o h
  refine ⟨?_, ?_, ?_, ?_⟩ <;> intro p hp <;> rw [key, hp]

/-- Witness of C3 at the LIF cell of the sample recipe. -/
theorem get_cell_description_resolves_witness :
    (py_recipe_shim.mk sample_recipe).get_cell_description 1 = .ok (.lif_cell 42) :=
  (get_cell_description_resolves ⟨sample_recipe⟩ 1 ⟨.lif_cell 42, "<arbor.lif_cell>"⟩ rfl).2.1
    42 rfl

/-- Claim C4 as amended: when the object returned by the recipe's
`cell_description(gid)` has none of the four cell kinds as its runtime shape,
`get_cell_description(gid)` returns no payload and throws the `pyarb_error`
whose message is `recipe.cell_description returned "` followed by the textual
rendering of the received object and by
`" which does not describe a known Arbor cell type`. The message is the same
for every gid. -/
theorem get_cell_description_mismatch {A : engine} (self : py_recipe_shim A)
    (gid : cell_gid_type) (o : pyobject A) (h : self.impl_.cell_description gid = .ok o)
    (hc : isinstance_cable_cell o = false) (hl : isinstance_lif_cell o = false)
    (hs : isinstance_spike_source_cell o = false) (hb : isinstance_benchmark_cell o = false) :
    self.get_cell_description gid =
      .error (.pyarb_error
        ("recipe.cell_description returned \"" ++ o.str
          ++ "\" which does not describe a known Arbor cell type")) := by
  rw [get_cell_description_of_returned self gid o h]
  cases hsh : o.shape <;>
    simp_all [isinstance_cable_cell, isinstance_lif_cell, isinstance_spike_source_cell,
      isinstance_benchmark_cell]

/-- Witness of the amended C4: the description `None` of gid 7. -/
theorem get_cell_description_mismatch_witness :
    (py_recipe_shim.mk sample_recipe).get_cell_description 7 =
      .error (.pyarb_error
        "recipe.cell_description returned \"None\" which does not describe a known Arbor cell type") :=
  get_cell_description_mismatch ⟨sample_recipe⟩ 7 py_none rfl rfl rfl rfl rfl

set_option maxRecDepth 100000 in
/-- Counterexample to C4 as stated: for gid 7, whose description is `None`,
the error message is
`recipe.cell_description returned "None" which does not describe a known Arbor cell type`;
the text `7` occurs nowhere in it, and gid 8 gets the very same error. -/
theorem get_cell_description_message_omits_gid :
    (py_recipe_shim.mk sample_recipe).get_cell_description 7 =
      .error (.pyarb_error
        "recipe.cell_description returned \"None\" which does not describe a known Arbor cell type") ∧
    ¬ List.IsInfix (toString (7 : cell_gid_type)).data
      "recipe.cell_description returned \"None\" which does not describe a known Arbor cell type".data ∧
    (py_recipe_shim.mk sample_recipe).get_cell_description 8 =
      (py_recipe_shim.mk sample_recipe).get_cell_description 7 := by
  refine ⟨rfl, ?_, rfl⟩
  decide

/-! ## Converting event generators -/

theorem event_generators_loop_of_shims {A : engine} (gid : cell_gid_type) :
    ∀ (pygens : List (pyobject A)) (ds : List (event_generator_shim A))
      (gens : List A.event_generator),
      pygens.map (fun g => g.shape) = ds.map pyshape.event_generator_shim →
      py_recipe_shim.event_generators_loop gid pygens gens =
        .ok (gens ++ ds.map fun p =>
          A.schedule_generator ⟨gid, p.target.index⟩ p.weight p.time_sched) := by
  intro pygens
  induction pygens with
  | nil =>
    intro ds gens h
    cases ds with
    | nil => simp [py_recipe_shim.event_generators_loop]
    | cons d ds => simp at h
  | cons g rest ih =>
    intro ds gens h
    cases ds with
    | nil => simp at h
    | cons d ds =>
      simp only [List.map_cons, List.cons.injEq] at h
      obtain ⟨hg, hrest⟩ := h
      simp only [py_recipe_shim.event_generators_loop, isinstance_event_generator_shim,
        cast_event_generator_shim, hg]
      simp only [Bool.not_true, Bool.false_eq_true, if_false]
      rw [ih ds _ hrest]
      simp

theorem event_generators_loop_of_malformed {A : engine} (gid : cell_gid_type)
    (g : pyobject A) (post : List (pyobject A))
    (hg : isinstance_event_generator_shim g = false) :
    ∀ (pre : List (pyobject A)) (gens : List A.event_generator),
      (∀ x ∈ pre, isinstance_event_generator_shim x = true) →
      py_recipe_shim.event_generators_loop gid (pre ++ g :: post) gens =
        .error (.pyarb_error
          ("recipe supplied an invalid event generator for gid " ++ toString gid ++ ": "
            ++ g.str)) := by
  intro pre
  induction pre with
  | nil =>
    intro gens _
    simp [py_recipe_shim.event_generators_loop, hg]
  | cons x pre ih =>
    intro gens hpre
    have hx : isinstance_event_generator_shim x = true := hpre x (List.mem_cons_self _ _)
    have hrest : ∀ y ∈ pre, isinstance_event_generator_shim y = true :=
      fun y hy => hpre y (List.mem_cons_of_mem _ hy)
    simp only [List.cons_append, py_recipe_shim.event_generators_loop, hx]
    simp only [Bool.not_true, Bool.false_eq_true, if_false]
    cases hsh : x.shape <;>
      simp_all [isinstance_event_generator_shim, cast_event_generator_shim]

theorem exists_first_malformed {A : engine} :
    ∀ (pygens : List (pyobject A)),
      (∃ g ∈ pygens, isinstance_event_generator_shim g = false) →
      ∃ pre g post, pygens = pre ++ g :: post ∧
        (∀ x ∈ pre, isinstance_event_generator_shim x = true) ∧
        isinstance_event_generator_shim g = false := by
  intro pygens
  induction pygens with
  | nil => rintro ⟨g, hg, _⟩; cases hg
  | cons x rest ih =>
    rintro ⟨g, hg, hbad⟩
    by_cases hx : isinstance_event_generator_shim x = true
    · have hin : g ∈ rest := by
        rcases List.mem_cons.1 hg with h | h
        · subst h; rw [hx] at hbad; cases hbad
        · exact h
      obtain ⟨pre, b, post, hsplit, hpre, hb⟩ := ih ⟨g, hin, hbad⟩
      refine ⟨x :: pre, b, post, by rw [hsplit]; rfl, ?_, hb⟩
      intro y hy
      rcases List.mem_cons.1 hy with h | h
      · subst h; exact hx
      · exact hpre y h
    · refine ⟨[], x, rest, rfl, ?_, by simpa using hx⟩
      intro y hy
      cases hy

/-- Claim C5: when the recipe's `event_generators(gid)` returns a list of
`N` objects that all have the event generator shape (the empty list
included), `py_recipe_shim::event_generators(gid)` returns normally with `N`
generators, in the order of the list, the one at each position being
`schedule_generator((gid, p.target.index), p.weight, p.time_sched)` for the
descriptor `p` at that position. -/
theorem event_generators_converts {A : engine} (self : py_recipe_shim A) (gid : cell_gid_type)
    (pygens : List (pyobject A)) (ds : List (event_generator_shim A))
    (h : self.impl_.event_generators gid = .ok pygens)
    (hshape : pygens.map (fun g => g.shape) = ds.map pyshape.event_generator_shim) :
    self.event_generators gid =
      .ok (ds.map fun p => A.schedule_generator ⟨gid, p.target.index⟩ p.weight p.time_sched) ∧
    (ds.map fun p =>
      A.schedule_generator ⟨gid, p.target.index⟩ p.weight p.time_sched).length
        = pygens.length := by
  constructor
  · unfold py_recipe_shim.event_generators
    rw [h]
    simp only [bind, Except.bind]
    rw [event_generators_loop_of_shims gid pygens ds [] hshape]
    simp
  · have hlen := congrArg List.length hshape
    simp only [List.length_map] at hlen
    simp [hlen]

/-- Witness of C5: the two generators of cell 1 of the sample recipe. -/
theorem event_generators_converts_witness :
    (py_recipe_shim.mk sample_recipe).event_generators 1 =
      .ok [(⟨1, 3⟩, fp.num false 1 (-1), [1, 2, 3]), (⟨1, 1⟩, fp.num false 1 1, [])] :=
  (event_generators_converts ⟨sample_recipe⟩ 1 _ [sample_gen_a, sample_gen_b] rfl rfl).1

/-- Claim C6: when the list returned by the recipe's `event_generators(gid)`
contains an object that lacks the event generator shape, the call
`py_recipe_shim::event_generators(gid)` returns no generators: it throws the
`pyarb_error` whose message is
`recipe supplied an invalid event generator for gid `, the gid, `: ` and the
textual rendering of the first such object of the list. -/
theorem event_generators_rejects_malformed {A : engine} (self : py_recipe_shim A)
    (gid : cell_gid_type) (pygens : List (pyobject A))
    (h : self.impl_.event_generators gid = .ok pygens)
    (hbad : ∃ g ∈ pygens, isinstance_event_generator_shim g = false) :
    ∃ pre g post, pygens = pre ++ g :: post ∧
      (∀ x ∈ pre, isinstance_event_generator_shim x = true) ∧
      isinstance_event_generator_shim g = false ∧
      self.event_generators gid =
        .error (.pyarb_error
          ("recipe supplied an invalid event generator for gid " ++ toString gid ++ ": "
            ++ g.str)) := by
  obtain ⟨pre, g, post, hsplit, hpre, hg⟩ := exists_first_malformed pygens hbad
  refine ⟨pre, g, post, hsplit, hpre, hg, ?_⟩
  unfold py_recipe_shim.event_generators
  rw [h]
  simp only [bind, Except.bind]
  rw [hsplit]
  exact event_generators_loop_of_malformed gid g post hg pre [] hpre

/-- Witness of C6: the generator list of the broken recipe, whose second
and fourth elements are malformed. -/
theorem event_generators_rejects_malformed_witness :
    ∃ pre g post,
      [⟨.event_generator_shim sample_gen_a, "<arbor.event_generator>"⟩, py_none,
        ⟨.event_generator_shim sample_gen_b, "<arbor.event_generator>"⟩, py_text]
          = pre ++ g :: post ∧
      (∀ x ∈ pre, isinstance_event_generator_shim x = true) ∧
      isinstance_event_generator_shim g = false ∧
      (py_recipe_shim.mk broken_recipe).event_generators 5 =
        .error (.pyarb_error
          ("recipe supplied an invalid event generator for gid "
            ++ toString (5 : cell_gid_type) ++ ": " ++ g.str)) :=
  event_generators_rejects_malformed ⟨broken_recipe⟩ 5 _ rfl ⟨py_none, by simp, rfl⟩

/-- The malformed list of the broken recipe, evaluated: the error names gid 5
and `None`, the first malformed element, not the later one. -/
theorem event_generators_broken_recipe :
    (py_recipe_shim.mk broken_recipe).event_generators 5 =
      .error (.pyarb_error "recipe supplied an invalid event generator for gid 5: None") := by
  rfl

/-! ## Resolving global properties -/

/-- Claim C7: for each of the kinds LIF, spike source and benchmark, whatever
object the recipe's `global_properties(kind)` returns,
`get_global_properties(kind)` returns normally and its result is the empty
`any`. -/
theorem get_global_properties_other_kinds {A : engine} (self : py_recipe_shim A)
    (kind : cell_kind) (o : pyobject A)
    (hk : kind = .lif ∨ kind = .spike_source ∨ kind = .benchmark)
    (h : self.impl_.global_properties kind = .ok o) :
    self.get_global_properties kind = .ok .empty := by
  unfold py_recipe_shim.get_global_properties
  rw [h]
  rcases hk with hk | hk | hk <;> subst hk <;> rfl

/-- Witness of C7: the sample recipe returns a string for the kind LIF. -/
theorem get_global_properties_other_kinds_witness :
    (py_recipe_shim.mk sample_recipe).get_global_properties .lif = .ok .empty :=
  get_global_properties_other_kinds ⟨sample_recipe⟩ .lif py_text (Or.inl rfl) rfl

/-- For the kind cable, an object that wraps cable global properties `g` is
resolved to a populated `any` holding `g`. -/
theorem get_global_properties_cable_of_properties {A : engine} (self : py_recipe_shim A)
    (o : pyobject A) (g : A.cable_cell_global_properties)
    (h : self.impl_.global_properties .cable = .ok o)
    (hg : o.shape = .cable_cell_global_properties g) :
    self.get_global_properties .cable = .ok (.cable_cell_global_properties g) := by
  unfold py_recipe_shim.get_global_properties
  rw [h]
  simp [cast_cable_cell_global_properties, hg, bind, Except.bind, pure, Except.pure]

/-- For the kind cable, an object of any other shape reaches the cast without
a preceding `isinstance` test, so what leaves the function is the `cast_error`
of `pybind11::cast`. -/
theorem get_global_properties_cable_of_other_shape {A : engine} (self : py_recipe_shim A)
    (o : pyobject A) (h : self.impl_.global_properties .cable = .ok o)
    (hne : ∀ g, o.shape ≠ .cable_cell_global_properties g) :
    self.get_global_properties .cable = .error .cast_error := by
  unfold py_recipe_shim.get_global_properties
  rw [h]
  cases hsh : o.shape <;>
    simp_all [cast_cable_cell_global_properties, bind, Except.bind, pure, Except.pure]

/-- Claim C8, the code at the failing input: the recipe returns `None` as the
global properties of cable cells. The claim asks for the shim's own
`pyarb_error` with the message
`recipe.global_properties returned "None" which does not describe a known Arbor global property description`,
which the source spells out after the conditional. Both branches of that
conditional return, so the statement is never reached:
`get_global_properties(cable)` fails with the `cast_error` of the cast, which
is not that `pyarb_error` and no `pyarb_error` at all. -/
theorem get_global_properties_cable_cast_error :
    (py_recipe_shim.mk broken_recipe).get_global_properties .cable = .error .cast_error ∧
    (py_recipe_shim.mk broken_recipe).get_global_properties .cable ≠
      .error (.pyarb_error
        "recipe.global_properties returned \"None\" which does not describe a known Arbor global property description") ∧
    ∀ msg, (py_recipe_shim.mk broken_recipe).get_global_properties .cable
      ≠ .error (.pyarb_error msg) := by
  have hval : (py_recipe_shim.mk broken_recipe).get_global_properties .cable
      = .error .cast_error := rfl
  refine ⟨hval, ?_, ?_⟩
  · rw [hval]
    intro hcontra
    cases hcontra
  · intro msg
    rw [hval]
    intro hcontra
    cases hcontra

/-! ## Textual rendering of connections and gap junctions -/

/-- Claim C9 as amended: for every connection `c`, `con_to_string(c)` is
exactly `<connection: (srcGid,srcIdx) -> (dstGid,dstIdx), delay D, weight W>`,
enclosed in angle brackets, with the fields of `c` substituted in that order;
the connection with source (2,1), destination (5,0), weight 0.1 and delay 0.5
renders as `<connection: (2,1) -> (5,0), delay 0.5, weight 0.1>`; equal
connections render to equal strings. -/
theorem con_to_string_format :
    (∀ c : cell_connection_shim,
      con_to_string c =
        "<connection: (" ++ stream_unsigned c.source.gid ++ "," ++ stream_unsigned c.source.index
          ++ ") -> (" ++ stream_unsigned c.destination.gid ++ ","
          ++ stream_unsigned c.destination.index ++ "), delay " ++ stream_fp c.delay
          ++ ", weight " ++ stream_fp c.weight ++ ">") ∧
    con_to_string sample_connection = "<connection: (2,1) -> (5,0), delay 0.5, weight 0.1>" ∧
    (∀ c₁ c₂ : cell_connection_shim, c₁ = c₂ → con_to_string c₁ = con_to_string c₂) := by
  refine ⟨fun c => ?_, by rfl, fun c₁ c₂ h => by rw [h]⟩
  apply String.ext
  simp only [con_to_string, pprintf, String.data_append, List.append_assoc]
  rfl

/-- Counterexample to C9 as stated: the connection with source (2,1),
destination (5,0), weight 0.1 and delay 0.5 renders with an opening and a
closing angle bracket, so not as
`connection: (2,1) -> (5,0), delay 0.5, weight 0.1`. -/
theorem con_to_string_has_brackets :
    con_to_string sample_connection = "<connection: (2,1) -> (5,0), delay 0.5, weight 0.1>" ∧
    con_to_string sample_connection ≠ "connection: (2,1) -> (5,0), delay 0.5, weight 0.1" := by
  decide

/-- Claim C10 as amended: for every gap junction connection `gc`, whatever
its conductance, `gj_to_string(gc)` is exactly
`<gap junction: (lGid,lIdx) <-> (pGid,pIdx), conductance G>`, enclosed in angle
brackets, with the local gid and index, the peer gid and index and the
conductance substituted in that order. -/
theorem gj_to_string_format (gc : gap_junction_connection) :
    gj_to_string gc =
      "<gap junction: (" ++ stream_unsigned gc.«local».gid ++ ","
        ++ stream_unsigned gc.«local».index ++ ") <-> (" ++ stream_unsigned gc.peer.gid ++ ","
        ++ stream_unsigned gc.peer.index ++ "), conductance " ++ stream_fp gc.ggap ++ ">" := by
  apply String.ext
  simp only [gj_to_string, pprintf, String.data_append, List.append_assoc]
  rfl

/-- Counterexample to C10 as stated: the gap junction between (0,1) and (3,2)
with conductance -0.25 renders with an opening and a closing angle bracket, so
not as `gap junction: (0,1) <-> (3,2), conductance -0.25`. -/
theorem gj_to_string_has_brackets :
    gj_to_string sample_gap_junction = "<gap junction: (0,1) <-> (3,2), conductance -0.25>" ∧
    gj_to_string sample_gap_junction ≠ "gap junction: (0,1) <-> (3,2), conductance -0.25" := by
  decide

end pyarb
